import Mathlib

/-!
Verification development for the furniture layout optimizer of the
Interior-Ai repository (`streamlit/utils/layout_generator.py`, class
`LayoutGenerator`).

Modelling conventions:
* Python floats are modelled as real numbers (`ℝ`); `np.sqrt` is `Real.sqrt`,
  `np.mean` of a list is its sum divided by its length, and Python's
  `max(0, s)` is `max 0 s`.
* The global numpy random source is modelled by explicit streams passed to
  each operation: `np.random.uniform(0, m)` consumes a draw `u ∈ [0, 1]`
  and yields `u * m`; `np.random.choice([0, 90, 180, 270])` consumes a
  `Fin 4`; `np.random.random() < p` gate draws are kept as real draws where
  the threshold matters (mutation) and as the resulting booleans where it
  does not (crossover position coins); `np.random.normal(0, 0.5)` is an
  unconstrained real draw.
* Dictionaries holding furniture data become records.  The `db_item`
  payload is opaque to the optimizer and is carried as a string; the
  `length_inches`/`width_inches` fields produced by
  `prepare_furniture_for_layout` never reach the optimizer and are omitted.
* List indexing `lst[i]` is modelled with `List.getD i default`; in the
  source an out-of-range index raises, so every theorem below only relies
  on `getD` at indices that are in range in the corresponding execution.
-/

/-- Furniture piece as produced by `prepare_furniture_for_layout`:
`{"name": ..., "length": ..., "width": ..., "db_item": ...}` (lengths in
feet). -/
structure FurnitureSpec where
  name : String
  length : ℝ
  width : ℝ
  db_item : String

/-- Placed furniture dictionary as built in
`generate_layout_with_custom_furniture`:
`{"name", "x", "y", "length", "width", "rotation", "db_item"}`. -/
structure PlacedFurniture where
  name : String
  x : ℝ
  y : ℝ
  length : ℝ
  width : ℝ
  rotation : ℕ
  db_item : String

instance : Inhabited PlacedFurniture :=
  ⟨⟨"", 0, 0, 0, 0, 0, ""⟩⟩

/-- Room dimensions dictionary `{"length": ..., "width": ...}`. -/
structure RoomDims where
  length : ℝ
  width : ℝ

/-- The value drawn by `np.random.choice([0, 90, 180, 270])`, indexed by
which of the four entries the random source selects. -/
def rotationChoice : Fin 4 → ℕ
  | 0 => 0
  | 1 => 90
  | 2 => 180
  | 3 => 270

/-- Loop body of `generate_layout_with_custom_furniture`: the piece built
for furniture at position `i` consumes uniform draws `u (2*i)` (for `x`),
`u (2*i+1)` (for `y`) and the choice draw `c i`.  `np.random.uniform(0, m)`
is modelled as `u k * m` with `u k ∈ [0, 1]`. -/
def generate_layout_aux (u : ℕ → ℝ) (c : ℕ → Fin 4)
    (room_length room_width : ℝ) : ℕ → List FurnitureSpec → List PlacedFurniture
  | _, [] => []
  | i, furniture :: rest =>
    { name := furniture.name
      x := u (2 * i) * max 0.1 (room_length - furniture.length)
      y := u (2 * i + 1) * max 0.1 (room_width - furniture.width)
      length := furniture.length
      width := furniture.width
      rotation := rotationChoice (c i)
      db_item := furniture.db_item } :: generate_layout_aux u c room_length room_width (i + 1) rest

/-- `generate_layout_with_custom_furniture(furniture_list, room_length,
room_width)` with the random source made explicit. -/
def generate_layout_with_custom_furniture (furniture_list : List FurnitureSpec)
    (room_length room_width : ℝ) (u : ℕ → ℝ) (c : ℕ → Fin 4) : List PlacedFurniture :=
  generate_layout_aux u c room_length room_width 0 furniture_list

/-- `furniture_overlap(f1, f2, spacing)`:
`not (f1.x + f1.length + spacing <= f2.x or f2.x + f2.length + spacing <= f1.x
or f1.y + f1.width + spacing <= f2.y or f2.y + f2.width + spacing <= f1.y)`. -/
def furniture_overlap (f1 f2 : PlacedFurniture) (spacing : ℝ) : Prop :=
  ¬ (f1.x + f1.length + spacing ≤ f2.x ∨
     f2.x + f2.length + spacing ≤ f1.x ∨
     f1.y + f1.width + spacing ≤ f2.y ∨
     f2.y + f2.width + spacing ≤ f1.y)

open Classical in
/-- Number of elements of a list satisfying `P` (the count accumulated by a
`for` loop testing `P` on each element). -/
noncomputable def listCount {α : Type} (P : α → Prop) : List α → ℕ
  | [] => 0
  | a :: t => (if P a then 1 else 0) + listCount P t

/-- The doubly nested loop
`for i, f1 in enumerate(layout): for f2 in layout[i+1:]: if
self.furniture_overlap(f1, f2): score -= 30` subtracts 30 exactly
`pairOverlapCount layout` times (the default spacing is 0.5). -/
noncomputable def pairOverlapCount : List PlacedFurniture → ℕ
  | [] => 0
  | f :: rest => listCount (fun g => furniture_overlap f g 0.5) rest + pairOverlapCount rest

/-- Out-of-bounds test from `evaluate_layout`:
`furniture["x"] < 0 or furniture["y"] < 0 or furniture["x"] +
furniture["length"] > room_length or furniture["y"] + furniture["width"] >
room_width`. -/
def isOutOfBounds (f : PlacedFurniture) (room_length room_width : ℝ) : Prop :=
  f.x < 0 ∨ f.y < 0 ∨ f.x + f.length > room_length ∨ f.y + f.width > room_width

/-- Wall test along the x-axis from `evaluate_layout`:
`furniture["x"] <= 0.5 or furniture["x"] + furniture["length"] >=
room_length - 0.5`. -/
def nearWallX (f : PlacedFurniture) (room_length : ℝ) : Prop :=
  f.x ≤ 0.5 ∨ f.x + f.length ≥ room_length - 0.5

/-- Wall test along the y-axis from `evaluate_layout`:
`furniture["y"] <= 0.5 or furniture["y"] + furniture["width"] >=
room_width - 0.5`. -/
def nearWallY (f : PlacedFurniture) (room_width : ℝ) : Prop :=
  f.y ≤ 0.5 ∨ f.y + f.width ≥ room_width - 0.5

open Classical in
/-- The `wall_bonus` accumulator of `evaluate_layout`: 5 per piece passing
the x-axis wall test plus 5 per piece passing the y-axis wall test. -/
noncomputable def wallBonus (room_length room_width : ℝ) : List PlacedFurniture → ℝ
  | [] => 0
  | f :: rest =>
    (if nearWallX f room_length then 5 else 0) +
    (if nearWallY f room_width then 5 else 0) +
    wallBonus room_length room_width rest

/-- The `distances` list of `evaluate_layout`: Euclidean distance of each
piece's center `(x + length/2, y + width/2)` to the room center
`(room_length/2, room_width/2)`. -/
noncomputable def centerDistances (room_length room_width : ℝ)
    (layout : List PlacedFurniture) : List ℝ :=
  layout.map fun f =>
    Real.sqrt ((f.x + f.length / 2 - room_length / 2) ^ 2 +
               (f.y + f.width / 2 - room_width / 2) ^ 2)

open Classical in
/-- The central-balance contribution of `evaluate_layout`: `if distances:`
guards the bonus, `avg_dist = np.mean(distances)`, and 10 is added when
`room_length * 0.2 < avg_dist < room_length * 0.4`. -/
noncomputable def balanceBonus (room_length room_width : ℝ)
    (layout : List PlacedFurniture) : ℝ :=
  let distances := centerDistances room_length room_width layout
  if distances = [] then 0
  else if room_length * 0.2 < distances.sum / distances.length ∧
          distances.sum / distances.length < room_length * 0.4 then 10 else 0

/-- The score accumulated by `evaluate_layout` before the final clamp:
100.0, minus 30 per overlapping pair, minus 25 per out-of-bounds piece,
plus the wall bonus, plus the central-balance bonus. -/
noncomputable def rawScore (layout : List PlacedFurniture) (room_dims : RoomDims) : ℝ :=
  100 - 30 * (pairOverlapCount layout : ℝ)
      - 25 * (listCount (fun f => isOutOfBounds f room_dims.length room_dims.width) layout : ℝ)
      + wallBonus room_dims.length room_dims.width layout
      + balanceBonus room_dims.length room_dims.width layout

/-- `evaluate_layout(layout, room_dims)`, which returns `max(0, score)`. -/
noncomputable def evaluate_layout (layout : List PlacedFurniture)
    (room_dims : RoomDims) : ℝ :=
  max 0 (rawScore layout room_dims)

/-- `crossover_layouts(parent1, parent2)`: for each `i` in
`range(len(parent1))`, append a copy of `parent1[i]` or `parent2[i]`
according to the coin `np.random.random() < 0.5`. -/
def crossover_layouts (coin : ℕ → Bool) (parent1 parent2 : List PlacedFurniture) :
    List PlacedFurniture :=
  (List.range parent1.length).map fun i =>
    if coin i then parent1.getD i default else parent2.getD i default

/-- `np.clip(v, lo, hi)` (equivalent to `np.minimum(np.maximum(v, lo), hi)`). -/
noncomputable def npClip (v lo hi : ℝ) : ℝ :=
  min (max v lo) hi

open Classical in
/-- Loop body of `mutate_layout`: piece `i` consumes the gate draw `r i`
(compared against the mutation rate) and, when mutating, the two Gaussian
draws `g i`. -/
noncomputable def mutate_aux (r : ℕ → ℝ) (g : ℕ → ℝ × ℝ)
    (room_length room_width mutation_rate : ℝ) :
    ℕ → List PlacedFurniture → List PlacedFurniture
  | _, [] => []
  | i, furniture :: rest =>
    (if r i < mutation_rate then
      { furniture with
          x := npClip (furniture.x + (g i).1) 0 (max 0.1 (room_length - furniture.length))
          y := npClip (furniture.y + (g i).2) 0 (max 0.1 (room_width - furniture.width)) }
     else furniture) :: mutate_aux r g room_length room_width mutation_rate (i + 1) rest

/-- `mutate_layout(layout, room_length, room_width, mutation_rate)` with the
random source made explicit (the source default for the rate is 0.3). -/
noncomputable def mutate_layout (r : ℕ → ℝ) (g : ℕ → ℝ × ℝ)
    (layout : List PlacedFurniture) (room_length room_width mutation_rate : ℝ) :
    List PlacedFurniture :=
  mutate_aux r g room_length room_width mutation_rate 0 layout

/-- Random draws consumed by `generate_layouts_with_furniture`, organised by
where the source consumes them: `initU i` / `initC i` feed the `i`-th initial
layout; per generation `gen` and new individual `k`, `mode gen k` is the
`np.random.random()` draw compared against 0.7, `par1`/`par2` are the two
parent indices produced by `np.random.choice(len(parent_pool), 2,
replace=False)`, `cross gen k` are the position coins of the crossover,
`freshU`/`freshC` feed a fresh random layout, and `mutR`/`mutG` feed the
final mutation. -/
structure GARng where
  initU : ℕ → ℕ → ℝ
  initC : ℕ → ℕ → Fin 4
  mode : ℕ → ℕ → ℝ
  par1 : ℕ → ℕ → ℕ
  par2 : ℕ → ℕ → ℕ
  cross : ℕ → ℕ → ℕ → Bool
  freshU : ℕ → ℕ → ℕ → ℝ
  freshC : ℕ → ℕ → ℕ → Fin 4
  mutR : ℕ → ℕ → ℕ → ℝ
  mutG : ℕ → ℕ → ℕ → ℝ × ℝ

open Classical in
/-- The fitness sort used by the generation loop and at termination:
`sorted(zip(fitness_scores, population), key=lambda x: x[0], reverse=True)`
followed by extraction of the layouts.  Python's sort is stable, as is
`List.mergeSort`. -/
noncomputable def sortByFitness (population : List (List PlacedFurniture))
    (room_dims : RoomDims) : List (List PlacedFurniture) :=
  ((population.map fun layout => (evaluate_layout layout room_dims, layout)).mergeSort
      fun a b => decide (b.1 ≤ a.1)).map Prod.snd

open Classical in
/-- One iteration of the generation loop of
`generate_layouts_with_furniture`: sort by fitness, keep the top
`max(1, pop_size // 5)` élite layouts, then fill up to `pop_size` with
mutated children (crossover of two parents from the top half with
probability 0.7, otherwise a fresh random layout).  Parent indices are
reduced modulo the pool size; `np.random.choice(len(parent_pool), ...)`
only ever produces in-range indices, on which the reduction is the
identity. -/
noncomputable def nextGeneration (furniture_list : List FurnitureSpec)
    (room_length room_width : ℝ) (pop_size : ℕ) (rng : GARng) (gen : ℕ)
    (population : List (List PlacedFurniture)) : List (List PlacedFurniture) :=
  let sortedPop := sortByFitness population ⟨room_length, room_width⟩
  let eliteCount := max 1 (pop_size / 5)
  let elite := sortedPop.take eliteCount
  let pool := sortedPop.take (pop_size / 2)
  elite ++ (List.range (pop_size - elite.length)).map fun k =>
    let child :=
      if rng.mode gen k < 0.7 then
        crossover_layouts (rng.cross gen k)
          (pool.getD (rng.par1 gen k % pool.length) [])
          (pool.getD (rng.par2 gen k % pool.length) [])
      else
        generate_layout_with_custom_furniture furniture_list room_length room_width
          (rng.freshU gen k) (rng.freshC gen k)
    mutate_layout (rng.mutR gen k) (rng.mutG gen k) child room_length room_width 0.3

/-- The `for gen in range(generations)` loop, with `gen` the index of the
current generation and the second argument the number of generations still
to run. -/
noncomputable def gaLoop (furniture_list : List FurnitureSpec)
    (room_length room_width : ℝ) (pop_size : ℕ) (rng : GARng) :
    ℕ → ℕ → List (List PlacedFurniture) → List (List PlacedFurniture)
  | _, 0, population => population
  | gen, remaining + 1, population =>
    gaLoop furniture_list room_length room_width pop_size rng (gen + 1) remaining
      (nextGeneration furniture_list room_length room_width pop_size rng gen population)

/-- `generate_layouts_with_furniture(furniture_list, room_length,
room_width, pop_size, generations)`: build the initial population, evolve it
for `generations` generations, then return `best_layouts[0]` from the final
fitness sort (source defaults: `pop_size=50`, `generations=50`).  In the
source `best_layouts[0]` raises on an empty population; the model returns
`[]` there and the theorems below assume `0 < pop_size`. -/
noncomputable def generate_layouts_with_furniture
    (furniture_list : List FurnitureSpec) (room_length room_width : ℝ)
    (pop_size generations : ℕ) (rng : GARng) : List PlacedFurniture :=
  let population := (List.range pop_size).map fun i =>
    generate_layout_with_custom_furniture furniture_list room_length room_width
      (rng.initU i) (rng.initC i)
  let finalPop := gaLoop furniture_list room_length room_width pop_size rng 0 generations population
  (sortByFitness finalPop ⟨room_length, room_width⟩).getD 0 []

/-- Result dictionary of `generate_complete_layout`, restricted to the
observable outcome: either the failure record
`{'success': False, 'error': ...}` or the success record with its layout and
`furniture_count` (the image buffer and AI placement instructions are
produced by external collaborators and are outside the optimizer model). -/
inductive CompleteLayoutResult where
  | failure (error_message : String)
  | success (layout : List PlacedFurniture) (furniture_count : ℕ)

/-- `generate_complete_layout`, taking the furniture list produced by
`prepare_furniture_for_layout` from `selected_furniture` (an empty
selection prepares to the empty list).  The second component counts the GA
generation-loop iterations executed: the `if not furniture_list` guard
returns before the genetic algorithm starts, so it reports 0 there, while a
call that reaches `generate_layouts_with_furniture` runs its loop exactly
`generations` times. -/
noncomputable def generate_complete_layout (furniture_list : List FurnitureSpec)
    (room_length room_width : ℝ) (pop_size generations : ℕ) (rng : GARng) :
    CompleteLayoutResult × ℕ :=
  if furniture_list.isEmpty then
    (.failure "No furniture to place", 0)
  else
    (.success
      (generate_layouts_with_furniture furniture_list room_length room_width
        pop_size generations rng)
      furniture_list.length, generations)

open Classical in
/-- Number of unordered pairs of pieces of the layout that overlap (with the
default spacing 0.5), read off the specification text: a two-element
sublist of the layout is exactly an unordered pair of (occurrences of)
pieces. -/
noncomputable def specOverlapPairCount (layout : List PlacedFurniture) : ℕ :=
  listCount
    (fun s => match s with
      | [f, g] => furniture_overlap f g 0.5
      | _ => False)
    (layout.sublistsLen 2)

open Classical in
/-- Evaluation formula written from the specification text: start from
100.0; subtract 30 per overlapping unordered pair and 25 per out-of-bounds
piece; add 5 per piece within 0.5 units of a room edge along the x-axis and
5 per piece within 0.5 units along the y-axis; add 10 when the mean
center-to-room-center distance lies strictly between `0.2 * length` and
`0.4 * length`; clamp the result at 0. -/
noncomputable def evaluateSpecFormula (layout : List PlacedFurniture)
    (room_dims : RoomDims) : ℝ :=
  let distances := centerDistances room_dims.length room_dims.width layout
  let mean := distances.sum / distances.length
  max 0 (100 - 30 * (specOverlapPairCount layout : ℝ)
    - 25 * (listCount (fun f => isOutOfBounds f room_dims.length room_dims.width) layout : ℝ)
    + 5 * (listCount (fun f => nearWallX f room_dims.length) layout : ℝ)
    + 5 * (listCount (fun f => nearWallY f room_dims.width) layout : ℝ)
    + (if room_dims.length * 0.2 < mean ∧ mean < room_dims.length * 0.4 then 10 else 0))

/-- A 2 by 2 furniture piece at position `(x, y)` (rotation 0), used in the
concrete layouts below. -/
def mkPiece (x y : ℝ) : PlacedFurniture :=
  ⟨"piece", x, y, 2, 2, 0, ""⟩

/-- A 20 by 20 room used by the concrete layouts below. -/
def exRoom : RoomDims :=
  ⟨20, 20⟩

/-- Concrete layout in `exRoom`: four coincident pieces at `(9, 9)` (six
overlapping pairs) plus an overlapping pair at `(4, 9)` and `(3, 9)`; seven
overlapping pairs in total, everything in bounds, away from the walls, and
with no central-balance bonus. -/
def exOverlapL : List PlacedFurniture :=
  [mkPiece 9 9, mkPiece 9 9, mkPiece 9 9, mkPiece 9 9, mkPiece 4 9, mkPiece 3 9]

/-- The layout `exOverlapL` with its last piece moved from `(3, 9)` to
`(14, 9)`: the pair at indices 4 and 5 has been separated and no other
fitness-relevant feature changed (six overlapping pairs remain). -/
def exSeparatedL : List PlacedFurniture :=
  [mkPiece 9 9, mkPiece 9 9, mkPiece 9 9, mkPiece 9 9, mkPiece 4 9, mkPiece 14 9]

/-- Concrete layout in `exRoom` with a single overlapping pair (two
coincident pieces at `(9, 9)`) and no other penalty or bonus. -/
def exPairL : List PlacedFurniture :=
  [mkPiece 9 9, mkPiece 9 9]

/-- The layout `exPairL` with its second piece moved to `(3, 9)`: the only
overlapping pair separated, no new violation, walls and balance unchanged. -/
def exPairSepL : List PlacedFurniture :=
  [mkPiece 9 9, mkPiece 3 9]

/-- Concrete furniture specification (a 6.5 by 5 bed) for witnesses. -/
def exBed : FurnitureSpec :=
  ⟨"bed", 6.5, 5, ""⟩

/-- Constant-zero uniform stream for witnesses. -/
def zeroU : ℕ → ℝ :=
  fun _ => 0

/-- Constant choice stream for witnesses. -/
def zeroC : ℕ → Fin 4 :=
  fun _ => 0

/-- Constant gaussian-draw stream for witnesses. -/
def zeroG : ℕ → ℝ × ℝ :=
  fun _ => (0, 0)

/-- Constant-zero GA random source for witnesses. -/
def zeroRng : GARng :=
  ⟨fun _ _ => 0, fun _ _ => 0, fun _ _ => 0, fun _ _ => 0, fun _ _ => 0,
   fun _ _ _ => false, fun _ _ _ => 0, fun _ _ _ => 0, fun _ _ _ => 0,
   fun _ _ _ => (0, 0)⟩

theorem listCount_nil {α : Type} (P : α → Prop) : listCount P [] = 0 := by
  simp [listCount]

open Classical in
theorem listCount_cons {α : Type} (P : α → Prop) (a : α) (t : List α) :
    listCount P (a :: t) = (if P a then 1 else 0) + listCount P t := by
  simp [listCount]

theorem listCount_append {α : Type} (P : α → Prop) (l1 l2 : List α) :
    listCount P (l1 ++ l2) = listCount P l1 + listCount P l2 := by
  induction l1 with
  | nil => simp [listCount]
  | cons a t ih => simp [listCount, ih]; omega

theorem listCount_reverse {α : Type} (P : α → Prop) (l : List α) :
    listCount P l.reverse = listCount P l := by
  induction l with
  | nil => simp
  | cons a t ih =>
    simp [listCount, List.reverse_cons, listCount_append, ih]
    omega

theorem listCount_map {α β : Type} (P : β → Prop) (f : α → β) (l : List α) :
    listCount P (l.map f) = listCount (fun a => P (f a)) l := by
  induction l with
  | nil => simp [listCount]
  | cons a t ih => simp [listCount, ih]

theorem pairOverlapCount_eq_spec (layout : List PlacedFurniture) :
    pairOverlapCount layout = specOverlapPairCount layout := by
  induction layout with
  | nil => simp [pairOverlapCount, specOverlapPairCount, listCount]
  | cons f rest ih =>
    simp [pairOverlapCount, specOverlapPairCount, List.sublistsLen_succ_cons,
      listCount_append, listCount_map, List.sublistsLen_one, listCount_reverse, ih]
    omega

open Classical in
theorem wallBonus_eq (room_length room_width : ℝ) (l : List PlacedFurniture) :
    wallBonus room_length room_width l =
      5 * (listCount (fun f => nearWallX f room_length) l : ℝ) +
      5 * (listCount (fun f => nearWallY f room_width) l : ℝ) := by
  induction l with
  | nil => simp [wallBonus, listCount]
  | cons f t ih =>
    simp only [wallBonus, listCount]
    rw [ih]
    by_cases hx : nearWallX f room_length <;> by_cases hy : nearWallY f room_width <;>
      simp [hx, hy] <;> push_cast <;> ring

open Classical in
theorem balanceBonus_eq (room_length room_width : ℝ) (l : List PlacedFurniture) :
    balanceBonus room_length room_width l =
      (if room_length * 0.2 <
            (centerDistances room_length room_width l).sum /
              (centerDistances room_length room_width l).length ∧
          (centerDistances room_length room_width l).sum /
              (centerDistances room_length room_width l).length < room_length * 0.4
        then 10 else 0) := by
  by_cases h : centerDistances room_length room_width l = []
  · have hmean : (centerDistances room_length room_width l).sum /
        (centerDistances room_length room_width l).length = 0 := by
      rw [h]; simp
    rw [balanceBonus, if_pos h, hmean]
    have hcond : ¬ (room_length * 0.2 < 0 ∧ (0:ℝ) < room_length * 0.4) := by
      rintro ⟨h1, h2⟩
      nlinarith
    rw [if_neg hcond]
  · rw [balanceBonus, if_neg h]

theorem getD_eq_get {α : Type} [Inhabited α] (l : List α) (i : ℕ) (h : i < l.length) :
    l.getD i default = l.get ⟨i, h⟩ := by
  rw [List.getD_eq_getElem?_getD, List.getElem?_eq_getElem h]
  rfl

theorem rotationChoice_mem (v : Fin 4) :
    rotationChoice v = 0 ∨ rotationChoice v = 90 ∨
      rotationChoice v = 180 ∨ rotationChoice v = 270 := by
  fin_cases v <;> simp [rotationChoice]

/-- C2: for every layout and every room, `evaluate_layout` agrees with the
specification's additive formula — `max(0, 100 − 30·overlapping pairs −
25·out-of-bounds pieces + 5 per piece near a wall along x + 5 per piece
near a wall along y + 10 if the mean center distance lies strictly between
`0.2·length` and `0.4·length`)` — and in particular is never below 0. -/
theorem evaluate_layout_eq_spec_formula (layout : List PlacedFurniture)
    (room_dims : RoomDims) :
    evaluate_layout layout room_dims = evaluateSpecFormula layout room_dims ∧
      0 ≤ evaluate_layout layout room_dims := by
  refine ⟨?_, le_max_left 0 _⟩
  unfold evaluate_layout rawScore evaluateSpecFormula
  rw [wallBonus_eq, balanceBonus_eq, pairOverlapCount_eq_spec]
  congr 1
  ring

/-- C5: `furniture_overlap` is false whenever the two rectangles are
separated by at least `spacing` along the x-axis or along the y-axis, and
true for two identical rectangles with positive dimensions at the same
position with any `spacing ≥ 0`. -/
theorem furniture_overlap_separated_and_identical (a b : PlacedFurniture) (s : ℝ) :
    ((a.x + a.length + s ≤ b.x ∨ b.x + b.length + s ≤ a.x ∨
      a.y + a.width + s ≤ b.y ∨ b.y + b.width + s ≤ a.y) →
        ¬ furniture_overlap a b s) ∧
    (0 ≤ s → 0 < a.length → 0 < a.width →
      a.x = b.x → a.y = b.y → a.length = b.length → a.width = b.width →
      furniture_overlap a b s) := by
  constructor
  · intro h hov
    exact hov h
  · intro hs hl hw hx hy hlen hwid
    unfold furniture_overlap
    push_neg
    exact ⟨by linarith, by linarith, by linarith, by linarith⟩

/-- C5 witness: a pair separated by 9.5 > 0.5 units along x does not
overlap, and two coincident 2 by 2 pieces overlap with spacing 0.5. -/
theorem furniture_overlap_separated_and_identical_witness :
    ¬ furniture_overlap (mkPiece 0 0) (mkPiece 10 0) 0.5 ∧
      furniture_overlap (mkPiece 9 9) (mkPiece 9 9) 0.5 := by
  constructor
  · exact (furniture_overlap_separated_and_identical (mkPiece 0 0) (mkPiece 10 0) 0.5).1
      (Or.inl (by norm_num [mkPiece]))
  · exact (furniture_overlap_separated_and_identical (mkPiece 9 9) (mkPiece 9 9) 0.5).2
      (by norm_num) (by norm_num [mkPiece]) (by norm_num [mkPiece]) rfl rfl rfl rfl

/-- C6: `furniture_overlap` is symmetric in its two pieces for every
spacing. -/
theorem furniture_overlap_symmetric (a b : PlacedFurniture) (s : ℝ) :
    furniture_overlap a b s ↔ furniture_overlap b a s := by
  unfold furniture_overlap
  constructor <;> intro h hc <;> apply h <;> tauto

/-- C8: crossing a layout over with itself returns a layout equal to it,
whatever the position coins are. -/
theorem crossover_self_eq (coin : ℕ → Bool) (A : List PlacedFurniture) :
    crossover_layouts coin A A = A := by
  unfold crossover_layouts
  apply List.ext_getElem
  · simp
  · intro i h1 h2
    simp only [List.getElem_map, List.getElem_range]
    rw [getD_eq_get A i (by simpa using h2)]
    cases coin i <;> simp

/-- C9: mutation with rate 0 returns the input layout unchanged, for every
gate-draw stream that can come from `np.random.random()` (draws are
nonnegative). -/
theorem mutate_zero_rate_eq (r : ℕ → ℝ) (g : ℕ → ℝ × ℝ)
    (layout : List PlacedFurniture) (room_length room_width : ℝ)
    (hr : ∀ i, 0 ≤ r i) :
    mutate_layout r g layout room_length room_width 0 = layout := by
  unfold mutate_layout
  suffices h : ∀ i0 l, mutate_aux r g room_length room_width 0 i0 l = l from h 0 layout
  intro i0 l
  induction l generalizing i0 with
  | nil => simp [mutate_aux]
  | cons f t ih =>
    rw [mutate_aux, if_neg (not_lt.2 (hr i0)), ih]

/-- C9 witness: mutating a concrete one-piece layout at rate 0 with the
constant-zero draw streams returns it unchanged. -/
theorem mutate_zero_rate_eq_witness :
    mutate_layout zeroU zeroG [mkPiece 9 9] 20 20 0 = [mkPiece 9 9] :=
  mutate_zero_rate_eq zeroU zeroG [mkPiece 9 9] 20 20 (fun _ => le_refl 0)

/-- C10: the empty layout evaluates to exactly 100 in any room with
positive dimensions: the balance bonus is skipped for the empty distance
list and no penalty or wall bonus applies. -/
theorem evaluate_empty_layout_eq_100 (room_dims : RoomDims)
    (hL : 0 < room_dims.length) (hW : 0 < room_dims.width) :
    evaluate_layout [] room_dims = 100 := by
  unfold evaluate_layout rawScore
  simp [pairOverlapCount, listCount, wallBonus, balanceBonus, centerDistances]

/-- C10 witness: the empty layout evaluates to 100 in the 12 by 10 room. -/
theorem evaluate_empty_layout_eq_100_witness :
    evaluate_layout [] ⟨12, 10⟩ = 100 ∧ (0:ℝ) < 12 ∧ (0:ℝ) < 10 :=
  ⟨evaluate_empty_layout_eq_100 ⟨12, 10⟩ (by norm_num) (by norm_num),
    by norm_num, by norm_num⟩

/-- C3: every layout produced by `generate_layout_with_custom_furniture`
from uniform draws in `[0, 1]` places each piece with
`x ∈ [0, max(0.1, room_length − length)]`,
`y ∈ [0, max(0.1, room_width − width)]`, and rotation in
{0, 90, 180, 270}. -/
theorem generate_layout_bounds (furniture_list : List FurnitureSpec)
    (room_length room_width : ℝ) (u : ℕ → ℝ) (c : ℕ → Fin 4)
    (hu : ∀ n, 0 ≤ u n ∧ u n ≤ 1) :
    ∀ piece ∈ generate_layout_with_custom_furniture furniture_list
        room_length room_width u c,
      (0 ≤ piece.x ∧ piece.x ≤ max 0.1 (room_length - piece.length)) ∧
      (0 ≤ piece.y ∧ piece.y ≤ max 0.1 (room_width - piece.width)) ∧
      (piece.rotation = 0 ∨ piece.rotation = 90 ∨
        piece.rotation = 180 ∨ piece.rotation = 270) := by
  unfold generate_layout_with_custom_furniture
  suffices h : ∀ i0 fl, ∀ piece ∈ generate_layout_aux u c room_length room_width i0 fl,
      (0 ≤ piece.x ∧ piece.x ≤ max 0.1 (room_length - piece.length)) ∧
      (0 ≤ piece.y ∧ piece.y ≤ max 0.1 (room_width - piece.width)) ∧
      (piece.rotation = 0 ∨ piece.rotation = 90 ∨
        piece.rotation = 180 ∨ piece.rotation = 270) from h 0 furniture_list
  intro i0 fl
  induction fl generalizing i0 with
  | nil => simp [generate_layout_aux]
  | cons f rest ih =>
    intro piece hmem
    rw [generate_layout_aux] at hmem
    rcases List.mem_cons.1 hmem with hhead | htail
    · subst hhead
      have hmx : (0:ℝ) ≤ max 0.1 (room_length - f.length) :=
        le_trans (by norm_num) (le_max_left _ _)
      have hmy : (0:ℝ) ≤ max 0.1 (room_width - f.width) :=
        le_trans (by norm_num) (le_max_left _ _)
      refine ⟨⟨mul_nonneg (hu _).1 hmx, ?_⟩, ⟨mul_nonneg (hu _).1 hmy, ?_⟩,
        rotationChoice_mem (c i0)⟩
      · simpa using mul_le_of_le_one_left hmx (hu (2 * i0)).2
      · simpa using mul_le_of_le_one_left hmy (hu (2 * i0 + 1)).2
    · exact ih (i0 + 1) piece htail

/-- C3 witness: the layout generated for the single 6.5 by 5 bed in a 12 by
10 room from the constant-zero streams satisfies the bounds at its only
piece. -/
theorem generate_layout_bounds_witness :
    (0 ≤ ((generate_layout_with_custom_furniture [exBed] 12 10 zeroU zeroC).getD 0 default).x ∧
      ((generate_layout_with_custom_furniture [exBed] 12 10 zeroU zeroC).getD 0 default).x ≤
        max 0.1 (12 - ((generate_layout_with_custom_furniture [exBed] 12 10 zeroU zeroC).getD 0 default).length)) ∧
    (0 ≤ ((generate_layout_with_custom_furniture [exBed] 12 10 zeroU zeroC).getD 0 default).y ∧
      ((generate_layout_with_custom_furniture [exBed] 12 10 zeroU zeroC).getD 0 default).y ≤
        max 0.1 (10 - ((generate_layout_with_custom_furniture [exBed] 12 10 zeroU zeroC).getD 0 default).width)) ∧
    (((generate_layout_with_custom_furniture [exBed] 12 10 zeroU zeroC).getD 0 default).rotation = 0 ∨
      ((generate_layout_with_custom_furniture [exBed] 12 10 zeroU zeroC).getD 0 default).rotation = 90 ∨
      ((generate_layout_with_custom_furniture [exBed] 12 10 zeroU zeroC).getD 0 default).rotation = 180 ∨
      ((generate_layout_with_custom_furniture [exBed] 12 10 zeroU zeroC).getD 0 default).rotation = 270) := by
  have h := generate_layout_bounds [exBed] 12 10 zeroU zeroC
    (fun n => ⟨le_refl 0, by norm_num [zeroU]⟩)
  exact h _ (by simp [generate_layout_with_custom_furniture, generate_layout_aux])

/-- C1: calling the layout pipeline with an empty furniture list reports
the explicit failure `No furniture to place` and performs no GA
generations, for every room, population size, generation count and random
source; no layout is returned. -/
theorem generate_complete_layout_empty (room_length room_width : ℝ)
    (pop_size generations : ℕ) (rng : GARng) :
    generate_complete_layout [] room_length room_width pop_size generations rng
      = (CompleteLayoutResult.failure "No furniture to place", 0) := by
  simp [generate_complete_layout]

theorem getD_mem {α : Type} (l : List α) (i : ℕ) (d : α) (h : i < l.length) :
    l.getD i d ∈ l := by
  rw [List.getD_eq_getElem?_getD, List.getElem?_eq_getElem h]
  exact List.getElem_mem h

theorem generate_layout_aux_length (u : ℕ → ℝ) (c : ℕ → Fin 4)
    (room_length room_width : ℝ) :
    ∀ i0 fl, (generate_layout_aux u c room_length room_width i0 fl).length = fl.length := by
  intro i0 fl
  induction fl generalizing i0 with
  | nil => simp [generate_layout_aux]
  | cons f rest ih => simp [generate_layout_aux, ih]

theorem generate_layout_with_custom_furniture_length
    (furniture_list : List FurnitureSpec) (room_length room_width : ℝ)
    (u : ℕ → ℝ) (c : ℕ → Fin 4) :
    (generate_layout_with_custom_furniture furniture_list room_length room_width u c).length
      = furniture_list.length :=
  generate_layout_aux_length u c room_length room_width 0 furniture_list

theorem crossover_layouts_length (coin : ℕ → Bool)
    (parent1 parent2 : List PlacedFurniture) :
    (crossover_layouts coin parent1 parent2).length = parent1.length := by
  simp [crossover_layouts]

theorem mutate_aux_length (r : ℕ → ℝ) (g : ℕ → ℝ × ℝ)
    (room_length room_width mutation_rate : ℝ) :
    ∀ i0 l, (mutate_aux r g room_length room_width mutation_rate i0 l).length = l.length := by
  intro i0 l
  induction l generalizing i0 with
  | nil => simp [mutate_aux]
  | cons f t ih => simp [mutate_aux, ih]

theorem mutate_layout_length (r : ℕ → ℝ) (g : ℕ → ℝ × ℝ)
    (layout : List PlacedFurniture) (room_length room_width mutation_rate : ℝ) :
    (mutate_layout r g layout room_length room_width mutation_rate).length = layout.length :=
  mutate_aux_length r g room_length room_width mutation_rate 0 layout

theorem sortByFitness_perm (population : List (List PlacedFurniture))
    (room_dims : RoomDims) :
    (sortByFitness population room_dims).Perm population := by
  unfold sortByFitness
  have h := (List.mergeSort_perm
    (population.map fun layout => (evaluate_layout layout room_dims, layout))
    (fun a b => decide (b.1 ≤ a.1))).map Prod.snd
  simpa [List.map_map, Function.comp_def] using h

theorem sortByFitness_length (population : List (List PlacedFurniture))
    (room_dims : RoomDims) :
    (sortByFitness population room_dims).length = population.length :=
  (sortByFitness_perm population room_dims).length_eq

theorem mem_of_mem_sortByFitness {population : List (List PlacedFurniture)}
    {room_dims : RoomDims} {l : List PlacedFurniture}
    (h : l ∈ sortByFitness population room_dims) : l ∈ population :=
  (sortByFitness_perm population room_dims).mem_iff.1 h

theorem nextGeneration_length (furniture_list : List FurnitureSpec)
    (room_length room_width : ℝ) (pop_size : ℕ) (rng : GARng) (gen : ℕ)
    (population : List (List PlacedFurniture))
    (hp : 0 < pop_size) (hlen : population.length = pop_size) :
    (nextGeneration furniture_list room_length room_width pop_size rng gen population).length
      = pop_size := by
  unfold nextGeneration
  have hs : (sortByFitness population ⟨room_length, room_width⟩).length = pop_size := by
    rw [sortByFitness_length, hlen]
  simp only [List.length_append, List.length_map, List.length_range, List.length_take, hs]
  omega

theorem nextGeneration_allLen (furniture_list : List FurnitureSpec)
    (room_length room_width : ℝ) (pop_size : ℕ) (rng : GARng) (gen : ℕ)
    (population : List (List PlacedFurniture))
    (hlen : population.length = pop_size)
    (hall : ∀ l ∈ population, l.length = furniture_list.length) :
    ∀ l ∈ nextGeneration furniture_list room_length room_width pop_size rng gen population,
      l.length = furniture_list.length := by
  intro l hl
  have hs : (sortByFitness population ⟨room_length, room_width⟩).length = pop_size := by
    rw [sortByFitness_length, hlen]
  have hsorted : ∀ x ∈ sortByFitness population ⟨room_length, room_width⟩,
      x.length = furniture_list.length :=
    fun x hx => hall x (mem_of_mem_sortByFitness hx)
  unfold nextGeneration at hl
  rw [List.mem_append] at hl
  rcases hl with helite | hchild
  · exact hsorted l (List.mem_of_mem_take helite)
  · rcases List.mem_map.1 hchild with ⟨k, hk, rfl⟩
    rw [List.mem_range, List.length_take, hs] at hk
    rw [mutate_layout_length]
    by_cases hmode : rng.mode gen k < 0.7
    · rw [if_pos hmode, crossover_layouts_length]
      have hp2 : 2 ≤ pop_size := by omega
      have hpool : 0 < ((sortByFitness population ⟨room_length, room_width⟩).take
          (pop_size / 2)).length := by
        rw [List.length_take, hs]
        omega
      exact hsorted _ (List.mem_of_mem_take
        (getD_mem _ _ _ (Nat.mod_lt _ hpool)))
    · rw [if_neg hmode, generate_layout_with_custom_furniture_length]

theorem gaLoop_invariant (furniture_list : List FurnitureSpec)
    (room_length room_width : ℝ) (pop_size : ℕ) (rng : GARng) (hp : 0 < pop_size) :
    ∀ remaining gen population, population.length = pop_size →
      (∀ l ∈ population, l.length = furniture_list.length) →
      (gaLoop furniture_list room_length room_width pop_size rng gen remaining population).length
          = pop_size ∧
        ∀ l ∈ gaLoop furniture_list room_length room_width pop_size rng gen remaining population,
          l.length = furniture_list.length := by
  intro remaining
  induction remaining with
  | zero =>
    intro gen population h1 h2
    rw [gaLoop]
    exact ⟨h1, h2⟩
  | succ m ih =>
    intro gen population h1 h2
    rw [gaLoop]
    exact ih (gen + 1) _
      (nextGeneration_length furniture_list room_length room_width pop_size rng gen
        population hp h1)
      (nextGeneration_allLen furniture_list room_length room_width pop_size rng gen
        population h1 h2)

theorem generate_layouts_with_furniture_length
    (furniture_list : List FurnitureSpec) (room_length room_width : ℝ)
    (pop_size generations : ℕ) (rng : GARng) (hp : 0 < pop_size) :
    (generate_layouts_with_furniture furniture_list room_length room_width
        pop_size generations rng).length = furniture_list.length := by
  unfold generate_layouts_with_furniture
  have hinit_len : ((List.range pop_size).map fun i =>
      generate_layout_with_custom_furniture furniture_list room_length room_width
        (rng.initU i) (rng.initC i)).length = pop_size := by
    simp
  have hinit_all : ∀ l ∈ (List.range pop_size).map fun i =>
      generate_layout_with_custom_furniture furniture_list room_length room_width
        (rng.initU i) (rng.initC i), l.length = furniture_list.length := by
    intro l hl
    rcases List.mem_map.1 hl with ⟨i, _, rfl⟩
    exact generate_layout_with_custom_furniture_length furniture_list room_length
      room_width (rng.initU i) (rng.initC i)
  obtain ⟨hflen, hfall⟩ := gaLoop_invariant furniture_list room_length room_width
    pop_size rng hp generations 0 _ hinit_len hinit_all
  have hslen : (sortByFitness
      (gaLoop furniture_list room_length room_width pop_size rng 0 generations
        ((List.range pop_size).map fun i =>
          generate_layout_with_custom_furniture furniture_list room_length room_width
            (rng.initU i) (rng.initC i))) ⟨room_length, room_width⟩).length = pop_size := by
    rw [sortByFitness_length, hflen]
  have hpos : 0 < (sortByFitness
      (gaLoop furniture_list room_length room_width pop_size rng 0 generations
        ((List.range pop_size).map fun i =>
          generate_layout_with_custom_furniture furniture_list room_length room_width
            (rng.initU i) (rng.initC i))) ⟨room_length, room_width⟩).length := by
    omega
  exact hfall _ (mem_of_mem_sortByFitness (getD_mem _ 0 [] hpos))

/-- C7: the layouts produced and transformed by the search are always
index-aligned with the furniture list: a random layout has one entry per
furniture specification, crossover returns a child of its first parent's
length, mutation preserves the length, and the best layout returned by the
genetic search has the same length as the input furniture list. -/
theorem layout_length_invariants (furniture_list : List FurnitureSpec)
    (room_length room_width : ℝ) (u : ℕ → ℝ) (c : ℕ → Fin 4) (coin : ℕ → Bool)
    (r : ℕ → ℝ) (g : ℕ → ℝ × ℝ) (mutation_rate : ℝ)
    (parent1 parent2 layout : List PlacedFurniture)
    (pop_size generations : ℕ) (rng : GARng) (hpop : 0 < pop_size) :
    (generate_layout_with_custom_furniture furniture_list room_length room_width u c).length
        = furniture_list.length ∧
      (crossover_layouts coin parent1 parent2).length = parent1.length ∧
      (mutate_layout r g layout room_length room_width mutation_rate).length
        = layout.length ∧
      (generate_layouts_with_furniture furniture_list room_length room_width
          pop_size generations rng).length = furniture_list.length :=
  ⟨generate_layout_with_custom_furniture_length furniture_list room_length room_width u c,
    crossover_layouts_length coin parent1 parent2,
    mutate_layout_length r g layout room_length room_width mutation_rate,
    generate_layouts_with_furniture_length furniture_list room_length room_width
      pop_size generations rng hpop⟩

/-- C7 witness: the invariants at a concrete one-piece furniture list, a
two-element population, one generation, and the constant-zero random
source. -/
theorem layout_length_invariants_witness :
    (generate_layout_with_custom_furniture [exBed] 12 10 zeroU zeroC).length = 1 ∧
      (crossover_layouts (fun _ => true) exPairL exPairSepL).length = 2 ∧
      (mutate_layout zeroU zeroG exPairL 12 10 0.3).length = 2 ∧
      (generate_layouts_with_furniture [exBed] 12 10 2 1 zeroRng).length = 1 := by
  have h := layout_length_invariants [exBed] 12 10 zeroU zeroC (fun _ => true)
    zeroU zeroG 0.3 exPairL exPairSepL exPairL 2 1 zeroRng (by norm_num)
  simpa [exPairL, exPairSepL] using h

theorem sqrt_twentyfive : Real.sqrt 25 = 5 := by
  rw [show (25:ℝ) = 5 ^ 2 by norm_num, Real.sqrt_sq]
  norm_num

theorem sqrt_thirtysix : Real.sqrt 36 = 6 := by
  rw [show (36:ℝ) = 6 ^ 2 by norm_num, Real.sqrt_sq]
  norm_num

theorem pairOverlapCount_exOverlapL : pairOverlapCount exOverlapL = 7 := by
  norm_num [exOverlapL, pairOverlapCount, listCount, furniture_overlap, mkPiece]

theorem pairOverlapCount_exSeparatedL : pairOverlapCount exSeparatedL = 6 := by
  norm_num [exSeparatedL, pairOverlapCount, listCount, furniture_overlap, mkPiece]

theorem pairOverlapCount_exPairL : pairOverlapCount exPairL = 1 := by
  norm_num [exPairL, pairOverlapCount, listCount, furniture_overlap, mkPiece]

theorem pairOverlapCount_exPairSepL : pairOverlapCount exPairSepL = 0 := by
  norm_num [exPairSepL, pairOverlapCount, listCount, furniture_overlap, mkPiece]

theorem oobCount_exOverlapL :
    listCount (fun f => isOutOfBounds f exRoom.length exRoom.width) exOverlapL = 0 := by
  norm_num [exOverlapL, exRoom, listCount, isOutOfBounds, mkPiece]

theorem oobCount_exSeparatedL :
    listCount (fun f => isOutOfBounds f exRoom.length exRoom.width) exSeparatedL = 0 := by
  norm_num [exSeparatedL, exRoom, listCount, isOutOfBounds, mkPiece]

theorem oobCount_exPairL :
    listCount (fun f => isOutOfBounds f exRoom.length exRoom.width) exPairL = 0 := by
  norm_num [exPairL, exRoom, listCount, isOutOfBounds, mkPiece]

theorem oobCount_exPairSepL :
    listCount (fun f => isOutOfBounds f exRoom.length exRoom.width) exPairSepL = 0 := by
  norm_num [exPairSepL, exRoom, listCount, isOutOfBounds, mkPiece]

theorem wallBonus_exOverlapL : wallBonus exRoom.length exRoom.width exOverlapL = 0 := by
  norm_num [exOverlapL, exRoom, wallBonus, nearWallX, nearWallY, mkPiece]

theorem wallBonus_exSeparatedL : wallBonus exRoom.length exRoom.width exSeparatedL = 0 := by
  norm_num [exSeparatedL, exRoom, wallBonus, nearWallX, nearWallY, mkPiece]

theorem wallBonus_exPairL : wallBonus exRoom.length exRoom.width exPairL = 0 := by
  norm_num [exPairL, exRoom, wallBonus, nearWallX, nearWallY, mkPiece]

theorem wallBonus_exPairSepL : wallBonus exRoom.length exRoom.width exPairSepL = 0 := by
  norm_num [exPairSepL, exRoom, wallBonus, nearWallX, nearWallY, mkPiece]

theorem balanceBonus_exOverlapL : balanceBonus exRoom.length exRoom.width exOverlapL = 0 := by
  norm_num [balanceBonus, centerDistances, exOverlapL, exRoom, mkPiece,
    sqrt_twentyfive, sqrt_thirtysix]

theorem balanceBonus_exSeparatedL : balanceBonus exRoom.length exRoom.width exSeparatedL = 0 := by
  norm_num [balanceBonus, centerDistances, exSeparatedL, exRoom, mkPiece,
    sqrt_twentyfive, sqrt_thirtysix]

theorem balanceBonus_exPairL : balanceBonus exRoom.length exRoom.width exPairL = 0 := by
  norm_num [balanceBonus, centerDistances, exPairL, exRoom, mkPiece,
    sqrt_twentyfive, sqrt_thirtysix]

theorem balanceBonus_exPairSepL : balanceBonus exRoom.length exRoom.width exPairSepL = 0 := by
  norm_num [balanceBonus, centerDistances, exPairSepL, exRoom, mkPiece,
    sqrt_twentyfive, sqrt_thirtysix]

theorem rawScore_exPairL : rawScore exPairL exRoom = 70 := by
  unfold rawScore
  rw [pairOverlapCount_exPairL, oobCount_exPairL, wallBonus_exPairL, balanceBonus_exPairL]
  norm_num

theorem evaluate_exOverlapL : evaluate_layout exOverlapL exRoom = 0 := by
  unfold evaluate_layout rawScore
  rw [pairOverlapCount_exOverlapL, oobCount_exOverlapL, wallBonus_exOverlapL,
    balanceBonus_exOverlapL]
  norm_num [max_eq_left]

theorem evaluate_exSeparatedL : evaluate_layout exSeparatedL exRoom = 0 := by
  unfold evaluate_layout rawScore
  rw [pairOverlapCount_exSeparatedL, oobCount_exSeparatedL, wallBonus_exSeparatedL,
    balanceBonus_exSeparatedL]
  norm_num [max_eq_left]

/-- C4 counterexample: in `exRoom`, `exOverlapL` has seven overlapping
pairs and `exSeparatedL` is the same layout with the overlapping pair at
indices 4 and 5 separated — one overlap fewer, identical out-of-bounds
count, wall bonus and balance bonus — yet
`evaluate(exSeparatedL) = 0 ≠ evaluate(exOverlapL) + 30 = 30`, because both
pre-clamp scores are negative and the clamp absorbs the 30-point gain. -/
theorem evaluate_separated_pair_counterexample :
    furniture_overlap (mkPiece 4 9) (mkPiece 3 9) 0.5 ∧
      ¬ furniture_overlap (mkPiece 4 9) (mkPiece 14 9) 0.5 ∧
      pairOverlapCount exSeparatedL + 1 = pairOverlapCount exOverlapL ∧
      listCount (fun f => isOutOfBounds f exRoom.length exRoom.width) exSeparatedL
        = listCount (fun f => isOutOfBounds f exRoom.length exRoom.width) exOverlapL ∧
      wallBonus exRoom.length exRoom.width exSeparatedL
        = wallBonus exRoom.length exRoom.width exOverlapL ∧
      balanceBonus exRoom.length exRoom.width exSeparatedL
        = balanceBonus exRoom.length exRoom.width exOverlapL ∧
      evaluate_layout exSeparatedL exRoom ≠ evaluate_layout exOverlapL exRoom + 30 := by
  refine ⟨by norm_num [furniture_overlap, mkPiece], by norm_num [furniture_overlap, mkPiece],
    ?_, ?_, ?_, ?_, ?_⟩
  · rw [pairOverlapCount_exSeparatedL, pairOverlapCount_exOverlapL]
  · rw [oobCount_exSeparatedL, oobCount_exOverlapL]
  · rw [wallBonus_exSeparatedL, wallBonus_exOverlapL]
  · rw [balanceBonus_exSeparatedL, balanceBonus_exOverlapL]
  · rw [evaluate_exSeparatedL, evaluate_exOverlapL]
    norm_num

/-- C4 (amended): if `L'` has exactly one overlapping pair fewer than `L`
and the same out-of-bounds count, wall bonus and balance bonus (one
overlapping pair separated, all else equal, no new violation), and `L`'s
pre-clamp score is nonnegative (the clamp at 0 is not engaged), then
`evaluate(L') = evaluate(L) + 30`. -/
theorem evaluate_separated_pair_amended (L L' : List PlacedFurniture)
    (room_dims : RoomDims)
    (hov : pairOverlapCount L' + 1 = pairOverlapCount L)
    (hoob : listCount (fun f => isOutOfBounds f room_dims.length room_dims.width) L'
      = listCount (fun f => isOutOfBounds f room_dims.length room_dims.width) L)
    (hwall : wallBonus room_dims.length room_dims.width L'
      = wallBonus room_dims.length room_dims.width L)
    (hbal : balanceBonus room_dims.length room_dims.width L'
      = balanceBonus room_dims.length room_dims.width L)
    (hraw : 0 ≤ rawScore L room_dims) :
    evaluate_layout L' room_dims = evaluate_layout L room_dims + 30 := by
  have hcast : (pairOverlapCount L' : ℝ) + 1 = (pairOverlapCount L : ℝ) := by
    exact_mod_cast hov
  have hr : rawScore L' room_dims = rawScore L room_dims + 30 := by
    unfold rawScore
    rw [hoob, hwall, hbal]
    linarith
  unfold evaluate_layout
  rw [hr, max_eq_right hraw, max_eq_right (by linarith)]

/-- C4 witness for the amended claim: separating the single overlapping
pair of `exPairL` (pre-clamp score 70, no clamping) raises the score by
exactly 30. -/
theorem evaluate_separated_pair_amended_witness :
    evaluate_layout exPairSepL exRoom = evaluate_layout exPairL exRoom + 30 := by
  apply evaluate_separated_pair_amended
  · rw [pairOverlapCount_exPairSepL, pairOverlapCount_exPairL]
  · rw [oobCount_exPairSepL, oobCount_exPairL]
  · rw [wallBonus_exPairSepL, wallBonus_exPairL]
  · rw [balanceBonus_exPairSepL, balanceBonus_exPairL]
  · rw [rawScore_exPairL]
    norm_num
